import Mathlib

/-!
Shallow embedding of the idea-board backend (`src/main.py`, `src/schemas.py`).

The document store (MongoDB via `database.py`) is not part of `src/`; the spec
(§2, §4.1) declares it an external collaborator exposing insert / find / count.
Records are modelled as insertion-ordered association lists from field names to
values, mirroring Python dicts; collections are lists of records in insertion
order; object identifiers are opaque strings supplied by the store.
-/

/-- A field value of a stored record: strings, ObjectIds, datetimes
(as integer timestamps), integers, lists of strings (tags), and Python `None`. -/
inductive Val where
  | s : String → Val
  | oid : String → Val
  | dt : Int → Val
  | i : Int → Val
  | slist : List String → Val
  | null : Val
deriving DecidableEq, Repr

/-- A record (Python dict): insertion-ordered association list with unique keys. -/
abbrev Doc := List (String × Val)

/-- `d[k]` / `d.get(k)`: first binding of key `k`. -/
def dget : Doc → String → Option Val
  | [], _ => Option.none
  | (k', v') :: d, k => if k' = k then some v' else dget d k

/-- `d[k] = v`: update the existing binding in place, else append at the end
(Python dict assignment keeps the key's position). -/
def dset : Doc → String → Val → Doc
  | [], k, v => [(k, v)]
  | (k', v') :: d, k, v => if k' = k then (k, v) :: d else (k', v') :: dset d k v

/-- `d.pop(k, None)`: drop the binding of key `k` if present. -/
def dpop : Doc → String → Doc
  | [], _ => []
  | (k', v') :: d, k => if k' = k then d else (k', v') :: dpop d k

/-- Abstract rendering of `datetime.isoformat()`: an injective textual encoding
of the timestamp (the exact ISO-8601 digit layout is not load-bearing for any
claim, only that the datetime value is replaced by text). -/
def isoformat (t : Int) : String := "1970-01-01T00:00:00+offset" ++ toString t

/-- Python `str()` on an optional field value, as used on `doc.get("_id")`:
`str(ObjectId(h))` is the hex string `h`, `str(None)` is `"None"`. -/
def strVal : Option Val → String
  | some (Val.oid h) => h
  | some (Val.s t) => t
  | some (Val.dt t) => isoformat t
  | some (Val.i n) => toString n
  | some (Val.slist _) => "[list]"
  | some Val.null => "None"
  | Option.none => "None"

/-- `if k in doc and isinstance(doc[k], datetime): doc[k] = doc[k].isoformat()` -/
def convDt (d : Doc) (k : String) : Doc :=
  match dget d k with
  | some (Val.dt t) => dset d k (Val.s (isoformat t))
  | _ => d

/-- `serialize_doc` (main.py:40-47), as the contents transformation it applies
to the record: expose `_id` as string field `id`, drop `_id`, render
`created_at` / `updated_at` datetimes as text. -/
def serialize_doc (doc : Doc) : Doc :=
  let d1 := dset doc "id" (Val.s (strVal (dget doc "_id")))
  let d2 := dpop d1 "_id"
  convDt (convDt d2 "created_at") "updated_at"

/-- A heap of record objects (references are list indices), to state which
objects a call mutates. -/
abbrev Heap := List Doc

/-- One in-place statement on the object referenced by `r`. -/
def heapUpd (h : Heap) (r : Nat) (f : Doc → Doc) : Heap :=
  h.set r (f (h.getD r []))

/-- `serialize_doc` statement by statement (main.py:40-47): every assignment,
`pop` and loop-body conversion is performed on the argument object itself, and
the same reference is returned. -/
def serialize_doc_inplace (h : Heap) (r : Nat) : Heap × Nat :=
  let h1 := heapUpd h r (fun doc => dset doc "id" (Val.s (strVal (dget doc "_id"))))
  let h2 := heapUpd h1 r (fun doc => dpop doc "_id")
  let h3 := heapUpd h2 r (fun doc => convDt doc "created_at")
  let h4 := heapUpd h3 r (fun doc => convDt doc "updated_at")
  (h4, r)

/-- The three collections of the store (§6: `idea`, `comment`, `vote`). -/
structure DB where
  idea : List Doc
  comment : List Doc
  vote : List Doc
deriving DecidableEq, Repr

/-- Modelled from the spec: `create_document(kind, data)` lives in
`database.py`, which is not under `src/`. §4.1: "accepts a mapping of fields,
stamps a creation time, inserts into the named collection, returns the new
record's identifier as a string. Side effect: one store write." The
store-generated identifier is passed in as `freshId`, the current time as
`now`. `stamped` is the record as it lands in the collection. -/
def stamped (data : Doc) (freshId : String) (now : Int) : Doc :=
  dset (dset data "_id" (Val.oid freshId)) "created_at" (Val.dt now)

/-- Modelled from the spec (continued): the one store write performed by
`create_document`: append the stamped record, return the identifier. -/
def create_document (coll : List Doc) (data : Doc) (freshId : String) (now : Int) :
    List Doc × String :=
  (coll ++ [stamped data freshId now], freshId)

/-- An HTTP outcome: a 200 body, or an `HTTPException(status_code, detail)`. -/
inductive Resp (α : Type) where
  | ok : α → Resp α
  | err : Nat → String → Resp α
deriving DecidableEq, Repr

/-- Whether the outcome is a 200 response. -/
def Resp.isOk {α : Type} : Resp α → Bool
  | Resp.ok _ => true
  | Resp.err _ _ => false

/-- `get_time_filter(period)` (main.py:114-122): `week` → lower bound
now − 7 days, `month` → now − 30 days, anything else → no restriction
(the empty filter `{}`). A day is 86400 seconds. -/
def get_time_filter (now : Int) (period : String) : Option Int :=
  if period = "week" then some (now - 7 * 86400)
  else if period = "month" then some (now - 30 * 86400)
  else Option.none

/-- A Mongo query filter as built by main.py: an optional equality constraint
on `idea_id` and an optional `{"created_at": {"$gte": start}}` constraint. -/
structure MFilter where
  idea_id : Option Val
  voter : Option Val
  created_at_gte : Option Int
deriving DecidableEq, Repr

/-- Whether a record matches a filter: every present constraint holds
(`$gte` on a missing or non-datetime `created_at` does not match). -/
def matchesF (f : MFilter) (d : Doc) : Bool :=
  (match f.idea_id with
   | some v => dget d "idea_id" == some v
   | Option.none => true) &&
  (match f.voter with
   | some v => dget d "voter" == some v
   | Option.none => true) &&
  (match f.created_at_gte with
   | some start =>
     match dget d "created_at" with
     | some (Val.dt t) => start ≤ t
     | _ => false
   | Option.none => true)

/-- `collection.count_documents(filter)` of the external store. -/
def count_documents (coll : List Doc) (f : MFilter) : Nat :=
  coll.countP (matchesF f)

/-- `collection.find_one(filter)`: first matching record in store order. -/
def find_one (coll : List Doc) (f : MFilter) : Option Doc :=
  coll.find? (matchesF f)

/-- Equality-on-`_id` filter, as in `find_one({"_id": ObjectId(idea_id)})`. -/
def byId (idea_id : String) (d : Doc) : Bool :=
  dget d "_id" == some (Val.oid idea_id)

/-- Python's stable descending insertion: place `a` before the first element
whose key is strictly smaller, after all elements with a ≥ key. -/
def insertDescBy {α : Type} (key : α → Int) (a : α) : List α → List α
  | [] => [a]
  | b :: l => if key b ≤ key a then a :: b :: l else b :: insertDescBy key a l

/-- The unique stable descending sort by `key`: the functional model of
CPython's `list.sort(key=key, reverse=True)` (stable, descending). -/
def sortDescBy {α : Type} (key : α → Int) : List α → List α
  | [] => []
  | a :: l => insertDescBy key a (sortDescBy key l)

/-- `x.get(k, 0)` on an enriched idea object whose `k` field is an integer. -/
def intField (k : String) (d : Doc) : Int :=
  match dget d k with
  | some (Val.i n) => n
  | _ => 0

/-- Python truthiness of an optional string (`None` and `""` are falsy). -/
def truthyS : Option String → Bool
  | some v => v ≠ ""
  | Option.none => false

/-- Optional-string request field as a stored value (`None` → Python `None`). -/
def optS : Option String → Val
  | some v => Val.s v
  | Option.none => Val.null

/-- `created_at` of a record as a sort key (records written through the store
always carry one; `0` for the impossible missing case). -/
def createdAtKey (d : Doc) : Int :=
  match dget d "created_at" with
  | some (Val.dt t) => t
  | _ => 0

/-- `idea_id = str(idea["_id"]) if "_id" in idea else idea.get("id")`
(main.py:134). -/
def ideaIdOf (idea : Doc) : Val :=
  match dget idea "_id" with
  | some v => Val.s (strVal (some v))
  | Option.none => (dget idea "id").getD Val.null

/-- `time_filter = get_time_filter(period) if period in ("week", "month")
else {}` (main.py:131); `period` is an optional query parameter. -/
def listTimeFilter (now : Int) (period : Option String) : Option Int :=
  match period with
  | some p => if p = "week" ∨ p = "month" then get_time_filter now p else Option.none
  | Option.none => Option.none

/-- Loop body of main.py:133-148: count votes and comments for one idea under
the (shared) time filter, serialize, and attach the two counts. -/
def enrich1 (db : DB) (tf : Option Int) (idea : Doc) : Doc :=
  let idea_id := ideaIdOf idea
  let vote_filter : MFilter := { idea_id := some idea_id, voter := Option.none, created_at_gte := tf }
  let votes := count_documents db.vote vote_filter
  let comment_filter : MFilter := { idea_id := some idea_id, voter := Option.none, created_at_gte := tf }
  let comments := count_documents db.comment comment_filter
  let doc := serialize_doc idea
  let doc := dset doc "votes" (Val.i votes)
  dset doc "comments" (Val.i comments)

/-- The enriched list before sorting (main.py:129-148). -/
def enrich (now : Int) (db : DB) (period : Option String) : List Doc :=
  db.idea.map (enrich1 db (listTimeFilter now period))

/-- `GET /api/ideas` (main.py:126-154). `sortq` is the `sort` query parameter,
whose FastAPI default is `"votes"`. -/
def list_ideas (now : Int) (db : DB) (period : Option String) (sortq : String) : List Doc :=
  let enriched := enrich now db period
  if sortq = "comments" then sortDescBy (intField "comments") enriched
  else sortDescBy (intField "votes") enriched

/-- Response shape of `GET /api/ideas/{id}`: the serialized idea with the
attached `comments_list` and `votes` fields (main.py:166-167); the two
attachments are modelled as structure fields because record values here are
flat. -/
structure IdeaDetail where
  idea : Doc
  comments_list : List Doc
  votes : Nat
deriving DecidableEq, Repr

/-- `db["comment"].find({"idea_id": idea_id}).sort("created_at", -1)`
(main.py:162): the matching comments, newest first. -/
def sorted_comments (db : DB) (idea_id : String) : List Doc :=
  sortDescBy createdAtKey
    (db.comment.filter (matchesF { idea_id := some (Val.s idea_id), voter := Option.none, created_at_gte := Option.none }))

/-- `GET /api/ideas/{id}` (main.py:156-168). -/
def get_idea (db : DB) (idea_id : String) : Resp IdeaDetail :=
  match db.idea.find? (byId idea_id) with
  | Option.none => Resp.err 404 "Idea not found"
  | some doc =>
    let comments := (sorted_comments db idea_id).map serialize_doc
    let votes := count_documents db.vote
      { idea_id := some (Val.s idea_id), voter := Option.none, created_at_gte := Option.none }
    Resp.ok { idea := serialize_doc doc, comments_list := comments, votes := votes }

/-- Request body of `POST /api/ideas` (main.py:22-27). -/
structure IdeaCreate where
  title : String
  description : String
  author : Option String
  link : Option String
  tags : List String
deriving DecidableEq, Repr

/-- `payload.model_dump()`: the request fields in declaration order. -/
def IdeaCreate.dump (p : IdeaCreate) : Doc :=
  [("title", Val.s p.title), ("description", Val.s p.description),
   ("author", optS p.author), ("link", optS p.link), ("tags", Val.slist p.tags)]

/-- Link normalization in `create_idea` (main.py:174-177): when the `link`
field is truthy and starts with neither `http://` nor `https://`, prepend
`https://`; otherwise leave the data unchanged. -/
def normalize_link (data : Doc) : Doc :=
  match dget data "link" with
  | some (Val.s l) =>
    if l ≠ "" then
      if ¬ (l.startsWith "http://" ∨ l.startsWith "https://") then
        dset data "link" (Val.s ("https://" ++ l))
      else data
    else data
  | _ => data

/-- `POST /api/ideas` (main.py:170-180). -/
def create_idea (db : DB) (p : IdeaCreate) (now : Int) (freshId : String) : DB × Resp Doc :=
  let data := normalize_link p.dump
  let res := create_document db.idea data freshId now
  let db' : DB := { idea := res.1, comment := db.comment, vote := db.vote }
  match db'.idea.find? (byId res.2) with
  | some doc => (db', Resp.ok (serialize_doc doc))
  | Option.none => (db', Resp.err 500 "TypeError")

/-- Request body of `POST /api/comments` (main.py:29-32). -/
structure CommentCreate where
  idea_id : String
  author : Option String
  content : String
deriving DecidableEq, Repr

/-- `POST /api/comments` (main.py:182-189). -/
def add_comment (db : DB) (p : CommentCreate) (now : Int) (freshId : String) : DB × Resp Doc :=
  match db.idea.find? (byId p.idea_id) with
  | Option.none => (db, Resp.err 404 "Idea not found")
  | some _ =>
    let data : Doc := [("idea_id", Val.s p.idea_id), ("author", optS p.author),
                       ("content", Val.s p.content)]
    let res := create_document db.comment data freshId now
    let db' : DB := { idea := db.idea, comment := res.1, vote := db.vote }
    match db'.comment.find? (byId res.2) with
    | some doc => (db', Resp.ok (serialize_doc doc))
    | Option.none => (db', Resp.err 500 "TypeError")

/-- `voter_identity = payload.voter or (request.client.host if request.client
else None)` (main.py:197): Python `or` falls through on `None` and on the
empty string. -/
def resolve_voter (voter clientHost : Option String) : Option String :=
  match voter with
  | some v => if v = "" then clientHost else some v
  | Option.none => clientHost

/-- `POST /api/votes` (main.py:191-207). `clientHost` is
`request.client.host` when `request.client` is set. -/
def add_vote (db : DB) (idea_id : String) (voter clientHost : Option String)
    (now : Int) (freshId : String) : DB × Resp Doc :=
  match db.idea.find? (byId idea_id) with
  | Option.none => (db, Resp.err 404 "Idea not found")
  | some _ =>
    match resolve_voter voter clientHost with
    | Option.none => (db, Resp.err 400 "Missing voter identity")
    | some vi =>
      if vi = "" then (db, Resp.err 400 "Missing voter identity")
      else
        match find_one db.vote { idea_id := some (Val.s idea_id), voter := some (Val.s vi),
                                 created_at_gte := Option.none } with
        | some _ => (db, Resp.err 409 "Already voted")
        | Option.none =>
          let data : Doc := [("idea_id", Val.s idea_id), ("voter", Val.s vi)]
          let res := create_document db.vote data freshId now
          let db' : DB := { idea := db.idea, comment := db.comment, vote := res.1 }
          match db'.vote.find? (byId res.2) with
          | some doc => (db', Resp.ok (serialize_doc doc))
          | Option.none => (db', Resp.err 500 "TypeError")

/-- First seed idea (main.py:58-64). -/
def seedIdea1 : Doc :=
  [("title", Val.s "AI-Powered Code Reviewer"),
   ("description", Val.s "An agent that reviews PRs and suggests fixes."),
   ("author", Val.s "Alex"), ("tags", Val.slist ["AI", "DevTools"]),
   ("link", Val.s "https://example.com/code-reviewer")]

/-- Second seed idea (main.py:65-71). -/
def seedIdea2 : Doc :=
  [("title", Val.s "Fitness Buddy Chat"),
   ("description", Val.s "A chat app with a fitness coach agent."),
   ("author", Val.s "Sam"), ("tags", Val.slist ["Health", "Chatbot"]),
   ("link", Val.s "https://example.com/fitness-buddy")]

/-- Third seed idea (main.py:72-78). -/
def seedIdea3 : Doc :=
  [("title", Val.s "Travel Plan Optimizer"),
   ("description", Val.s "Smart itinerary planning using constraints."),
   ("author", Val.s "Jamie"), ("tags", Val.slist ["Travel", "Planner"]),
   ("link", Val.s "https://example.com/travel-optimizer")]

/-- A seed comment body (main.py:86-88). -/
def mkComment (ideaId author content : String) : Doc :=
  [("idea_id", Val.s ideaId), ("author", Val.s author), ("content", Val.s content)]

/-- A seed vote body (main.py:90-95). -/
def mkVote (ideaId voter : String) : Doc :=
  [("idea_id", Val.s ideaId), ("voter", Val.s voter)]

/-- `for i in range(n): create_document("vote", {"idea_id": ideaId, "voter":
f"user_{i}"})` — the collection after the loop; the store hands out the fresh
identifiers `fresh base, fresh (base+1), ...`. -/
def voteLoop (coll : List Doc) (ideaId : String) (n : Nat) (fresh : Nat → String)
    (base : Nat) (now : Int) : List Doc :=
  coll ++ (List.range n).map
    (fun i => stamped (mkVote ideaId ("user_" ++ toString i)) (fresh (base + i)) now)

/-- `ensure_seed_data` (main.py:51-95): skip when any idea exists; otherwise
insert the three fixed ideas, then the three fixed comments (two on the first
inserted idea, one on the second) and the 5 + 3 + 8 fixed votes. The store's
generated identifiers are the stream `fresh 0, fresh 1, ...` in insertion
order. -/
def ensure_seed_data (db : DB) (now : Int) (fresh : Nat → String) : DB :=
  if db.idea.length > 0 then db
  else
    let r0 := create_document db.idea seedIdea1 (fresh 0) now
    let r1 := create_document r0.1 seedIdea2 (fresh 1) now
    let r2 := create_document r1.1 seedIdea3 (fresh 2) now
    let id0 := r0.2
    let id1 := r1.2
    let id2 := r2.2
    let c0 := create_document db.comment (mkComment id0 "Maya" "Love this!") (fresh 3) now
    let c1 := create_document c0.1 (mkComment id0 "Ravi" "Would use at work.") (fresh 4) now
    let c2 := create_document c1.1 (mkComment id1 "Chris" "Nice concept.") (fresh 5) now
    let v0 := voteLoop db.vote id0 5 fresh 6 now
    let v1 := voteLoop v0 id1 3 fresh 11 now
    let v2 := voteLoop v1 id2 8 fresh 14 now
    { idea := r2.1, comment := c2.1, vote := v2 }

/-! ### Record (dict) lemmas -/

/-- Number of bindings of key `k` (a well-formed dict has at most one). -/
def countKey (d : Doc) (k : String) : Nat :=
  d.countP (fun p => p.1 == k)

theorem dget_dset_self (d : Doc) (k : String) (v : Val) :
    dget (dset d k v) k = some v := by
  induction d with
  | nil => simp [dset, dget]
  | cons p d ih =>
    obtain ⟨k', v'⟩ := p
    by_cases h : k' = k
    · subst h; simp [dset, dget]
    · simp [dset, dget, h, ih]

theorem dget_dset_ne (d : Doc) {k k2 : String} (v : Val) (h : k2 ≠ k) :
    dget (dset d k v) k2 = dget d k2 := by
  induction d with
  | nil => simp [dset, dget, Ne.symm h]
  | cons p d ih =>
    obtain ⟨k', v'⟩ := p
    by_cases h1 : k' = k
    · subst h1
      simp [dset, dget, Ne.symm h]
    · by_cases h2 : k' = k2
      · subst h2; simp [dset, dget, h1]
      · simp [dset, dget, h1, h2, ih]

theorem dget_dpop_ne (d : Doc) {k k2 : String} (h : k2 ≠ k) :
    dget (dpop d k) k2 = dget d k2 := by
  induction d with
  | nil => simp [dpop]
  | cons p d ih =>
    obtain ⟨k', v'⟩ := p
    by_cases h1 : k' = k
    · subst h1; simp [dpop, dget, Ne.symm h]
    · by_cases h2 : k' = k2
      · subst h2; simp [dpop, dget, h1]
      · simp [dpop, dget, h1, h2, ih]

theorem dget_eq_none_of_countKey_zero {d : Doc} {k : String}
    (h : countKey d k = 0) : dget d k = Option.none := by
  induction d with
  | nil => simp [dget]
  | cons p d ih =>
    obtain ⟨k', v'⟩ := p
    simp only [countKey, List.countP_cons] at h ih
    by_cases h1 : k' = k
    · simp [h1] at h
    · simp only [dget, h1, if_neg]
      exact ih (by omega)

theorem dget_dpop_self {d : Doc} {k : String} (h : countKey d k ≤ 1) :
    dget (dpop d k) k = Option.none := by
  induction d with
  | nil => simp [dpop, dget]
  | cons p d ih =>
    obtain ⟨k', v'⟩ := p
    simp only [countKey, List.countP_cons] at h ih
    by_cases h1 : k' = k
    · simp only [dpop, h1, if_pos]
      refine dget_eq_none_of_countKey_zero ?_
      simp [h1] at h
      simpa [countKey] using h
    · simp only [dpop, dget, h1, if_neg]
      exact ih (by simpa [h1] using h)

theorem countKey_dset_ne (d : Doc) {k k2 : String} (v : Val) (h : k2 ≠ k) :
    countKey (dset d k v) k2 = countKey d k2 := by
  induction d with
  | nil => simp [dset, countKey, Ne.symm h]
  | cons p d ih =>
    obtain ⟨k', v'⟩ := p
    by_cases h1 : k' = k
    · subst h1
      simp [dset, countKey, List.countP_cons, Ne.symm h]
    · simp only [dset, if_neg h1]
      simp only [countKey, List.countP_cons] at ih ⊢
      omega

theorem dget_convDt_ne (d : Doc) {k k2 : String} (h : k2 ≠ k) :
    dget (convDt d k) k2 = dget d k2 := by
  unfold convDt
  cases hv : dget d k with
  | none => rfl
  | some v => cases v <;> simp [dget_dset_ne _ _ h]

theorem convDt_of_dt {d : Doc} {k : String} {t : Int}
    (h : dget d k = some (Val.dt t)) :
    convDt d k = dset d k (Val.s (isoformat t)) := by
  unfold convDt
  rw [h]

theorem serialize_doc_id (d : Doc) :
    dget (serialize_doc d) "id" = some (Val.s (strVal (dget d "_id"))) := by
  unfold serialize_doc
  rw [dget_convDt_ne _ (by decide), dget_convDt_ne _ (by decide),
      dget_dpop_ne _ (by decide), dget_dset_self]

theorem serialize_doc_no_id {d : Doc} (h : countKey d "_id" ≤ 1) :
    dget (serialize_doc d) "_id" = Option.none := by
  unfold serialize_doc
  rw [dget_convDt_ne _ (by decide), dget_convDt_ne _ (by decide)]
  refine dget_dpop_self ?_
  rw [countKey_dset_ne _ _ (by decide)]
  exact h

theorem serialize_doc_created_at {d : Doc} {t : Int}
    (h : dget d "created_at" = some (Val.dt t)) :
    dget (serialize_doc d) "created_at" = some (Val.s (isoformat t)) := by
  unfold serialize_doc
  have h2 : dget (dpop (dset d "id" (Val.s (strVal (dget d "_id")))) "_id") "created_at"
      = some (Val.dt t) := by
    rw [dget_dpop_ne _ (by decide), dget_dset_ne _ _ (by decide)]
    exact h
  rw [dget_convDt_ne _ (by decide), convDt_of_dt h2, dget_dset_self]

theorem serialize_doc_updated_at {d : Doc} {t : Int}
    (h : dget d "updated_at" = some (Val.dt t)) :
    dget (serialize_doc d) "updated_at" = some (Val.s (isoformat t)) := by
  unfold serialize_doc
  have h2 : dget (convDt (dpop (dset d "id" (Val.s (strVal (dget d "_id")))) "_id")
      "created_at") "updated_at" = some (Val.dt t) := by
    rw [dget_convDt_ne _ (by decide), dget_dpop_ne _ (by decide),
        dget_dset_ne _ _ (by decide)]
    exact h
  rw [convDt_of_dt h2, dget_dset_self]

theorem serialize_doc_inplace_frame (h : Heap) {r r' : Nat} (hne : r' ≠ r) :
    ((serialize_doc_inplace h r).1).getD r' [] = h.getD r' [] := by
  simp [serialize_doc_inplace, heapUpd, List.getD, List.getElem?_set_ne (Ne.symm hne)]

theorem serialize_doc_inplace_content (h : Heap) {r : Nat} (hr : r < h.length) :
    ((serialize_doc_inplace h r).1).getD r [] = serialize_doc (h.getD r []) := by
  simp [serialize_doc_inplace, heapUpd, List.getD, List.getElem?_set_self,
    List.getElem?_set_self (by simpa using hr), serialize_doc, hr]

/-! ### Stable descending sort lemmas -/

theorem insertDescBy_perm {α : Type} (key : α → Int) (a : α) (l : List α) :
    List.Perm (insertDescBy key a l) (a :: l) := by
  induction l with
  | nil => exact List.Perm.refl _
  | cons b l ih =>
    by_cases h : key b ≤ key a
    · simp [insertDescBy, h]
    · simp only [insertDescBy, if_neg h]
      exact (List.Perm.cons b ih).trans (List.Perm.swap a b l)

theorem sortDescBy_perm {α : Type} (key : α → Int) (l : List α) :
    List.Perm (sortDescBy key l) l := by
  induction l with
  | nil => exact List.Perm.refl _
  | cons a l ih =>
    exact (insertDescBy_perm key a _).trans (List.Perm.cons a ih)

theorem pairwise_insertDescBy {α : Type} (key : α → Int) (a : α) {l : List α}
    (h : List.Pairwise (fun x y => key y ≤ key x) l) :
    List.Pairwise (fun x y => key y ≤ key x) (insertDescBy key a l) := by
  induction l with
  | nil => simp [insertDescBy]
  | cons b l ih =>
    rcases List.pairwise_cons.mp h with ⟨hb, hl⟩
    by_cases hba : key b ≤ key a
    · simp only [insertDescBy, if_pos hba]
      refine List.pairwise_cons.mpr ⟨?_, h⟩
      intro y hy
      rcases List.mem_cons.mp hy with rfl | hy
      · exact hba
      · exact le_trans (hb y hy) hba
    · simp only [insertDescBy, if_neg hba]
      refine List.pairwise_cons.mpr ⟨?_, ih hl⟩
      intro y hy
      rcases List.mem_cons.mp ((insertDescBy_perm key a l).mem_iff.mp hy) with rfl | hy'
      · exact le_of_lt (lt_of_not_le hba)
      · exact hb y hy'

theorem pairwise_sortDescBy {α : Type} (key : α → Int) (l : List α) :
    List.Pairwise (fun x y => key y ≤ key x) (sortDescBy key l) := by
  induction l with
  | nil => simp [sortDescBy]
  | cons a l ih => exact pairwise_insertDescBy key a ih

theorem filter_insertDescBy {α : Type} (key : α → Int) (a : α) (l : List α) (k : Int) :
    (insertDescBy key a l).filter (fun x => key x == k)
      = if key a == k then a :: l.filter (fun x => key x == k)
        else l.filter (fun x => key x == k) := by
  induction l with
  | nil =>
    by_cases h : key a == k <;> simp [insertDescBy, List.filter_cons, h]
  | cons b l ih =>
    by_cases hba : key b ≤ key a
    · simp only [insertDescBy, if_pos hba]
      by_cases h : key a == k <;> simp [List.filter_cons, h]
    · simp only [insertDescBy, if_neg hba]
      by_cases h : key a == k
      · have hk : key a = k := by simpa using h
        have hbk : ¬ (key b == k) := by
          simp only [beq_iff_eq]
          omega
        simp [List.filter_cons, hbk, ih, h]
      · by_cases hb : key b == k <;> simp [List.filter_cons, hb, ih, h]

theorem filter_sortDescBy {α : Type} (key : α → Int) (l : List α) (k : Int) :
    (sortDescBy key l).filter (fun x => key x == k)
      = l.filter (fun x => key x == k) := by
  induction l with
  | nil => rfl
  | cons a l ih =>
    have : sortDescBy key (a :: l) = insertDescBy key a (sortDescBy key l) := rfl
    rw [this, filter_insertDescBy, ih]
    by_cases h : key a == k <;> simp [List.filter_cons, h]

/-! ### Store-record lemmas -/

theorem dget_stamped_id (data : Doc) (f : String) (now : Int) :
    dget (stamped data f now) "_id" = some (Val.oid f) := by
  unfold stamped
  rw [dget_dset_ne _ _ (by decide), dget_dset_self]

theorem byId_stamped (data : Doc) (f : String) (now : Int) :
    byId f (stamped data f now) = true := by
  simp [byId, dget_stamped_id]

theorem dget_stamped_ne (data : Doc) {k : String} (f : String) (now : Int)
    (h1 : k ≠ "_id") (h2 : k ≠ "created_at") :
    dget (stamped data f now) k = dget data k := by
  unfold stamped
  rw [dget_dset_ne _ _ h2, dget_dset_ne _ _ h1]

theorem dget_stamped_created_at (data : Doc) (f : String) (now : Int) :
    dget (stamped data f now) "created_at" = some (Val.dt now) := by
  unfold stamped
  rw [dget_dset_self]

/-- A one-idea store used to instantiate the claims at concrete inputs. -/
def ideaW : Doc := [("_id", Val.oid "a")]

/-- A store holding only `ideaW`. -/
def dbW : DB := { idea := [ideaW], comment := [], vote := [] }

/-! ### Claims -/

/-- C4: `get_time_filter` maps `week` to the restriction creation time ≥
now−7 days, `month` to now−30 days, and any other period value to no
restriction; in `GET /api/ideas` this filter (here: `listTimeFilter`, equal to
`get_time_filter` on every period value) is applied identically to both the
vote-count and the comment-count query of every idea, and it is never applied
in `GET /api/ideas/{id}` (the detail vote count carries no `created_at`
restriction). -/
theorem C4_time_filter (now : Int) (p : String) (hw : p ≠ "week") (hm : p ≠ "month")
    (db : DB) (tf : Option Int) (idea : Doc) (i : String) (detail : IdeaDetail)
    (hd : get_idea db i = Resp.ok detail) :
    get_time_filter now "week" = some (now - 7 * 86400)
    ∧ get_time_filter now "month" = some (now - 30 * 86400)
    ∧ get_time_filter now p = Option.none
    ∧ (∀ q : String, listTimeFilter now (some q) = get_time_filter now q)
    ∧ listTimeFilter now Option.none = Option.none
    ∧ dget (enrich1 db tf idea) "votes"
        = some (Val.i (count_documents db.vote
            { idea_id := some (ideaIdOf idea), voter := Option.none, created_at_gte := tf }))
    ∧ dget (enrich1 db tf idea) "comments"
        = some (Val.i (count_documents db.comment
            { idea_id := some (ideaIdOf idea), voter := Option.none, created_at_gte := tf }))
    ∧ detail.votes = count_documents db.vote
        { idea_id := some (Val.s i), voter := Option.none, created_at_gte := Option.none } := by
  refine ⟨by simp [get_time_filter], by simp [get_time_filter],
    by simp [get_time_filter, hw, hm], ?_, rfl, ?_, ?_, ?_⟩
  · intro q
    by_cases hq1 : q = "week"
    · simp [listTimeFilter, hq1]
    · by_cases hq2 : q = "month"
      · simp [listTimeFilter, get_time_filter, hq2]
      · simp [listTimeFilter, get_time_filter, hq1, hq2]
  · show dget (dset (dset (serialize_doc idea) "votes" _) "comments" _) "votes" = _
    rw [dget_dset_ne _ _ (by decide), dget_dset_self]
  · show dget (dset (dset (serialize_doc idea) "votes" _) "comments" _) "comments" = _
    rw [dget_dset_self]
  · cases hfind : db.idea.find? (byId i) with
    | none => simp [get_idea, hfind] at hd
    | some doc =>
      simp only [get_idea, hfind] at hd
      cases hd
      rfl

/-- C4 witness: the theorem applied at a concrete period, store and idea. -/
theorem C4_time_filter_witness :
    get_time_filter 3 "week" = some (3 - 7 * 86400)
    ∧ get_time_filter 3 "month" = some (3 - 30 * 86400)
    ∧ get_time_filter 3 "banana" = Option.none
    ∧ (∀ q : String, listTimeFilter 3 (some q) = get_time_filter 3 q)
    ∧ listTimeFilter 3 Option.none = Option.none
    ∧ dget (enrich1 dbW Option.none ideaW) "votes"
        = some (Val.i (count_documents dbW.vote
            { idea_id := some (ideaIdOf ideaW), voter := Option.none, created_at_gte := Option.none }))
    ∧ dget (enrich1 dbW Option.none ideaW) "comments"
        = some (Val.i (count_documents dbW.comment
            { idea_id := some (ideaIdOf ideaW), voter := Option.none, created_at_gte := Option.none }))
    ∧ (IdeaDetail.mk [("id", Val.s "a")] [] 0).votes = count_documents dbW.vote
        { idea_id := some (Val.s "a"), voter := Option.none, created_at_gte := Option.none } :=
  C4_time_filter 3 "banana" (by decide) (by decide) dbW Option.none ideaW "a"
    (IdeaDetail.mk [("id", Val.s "a")] [] 0) (by decide)

/-- C5 counterexample: the payload link `""` is present and lacks a recognized
scheme, yet the stored link is `""`, which does not begin with `https://` (the
code's `if link:` treats the empty string like an absent link). -/
theorem C5_counterexample :
    ("".startsWith "http://" || "".startsWith "https://") = false
    ∧ ((create_idea dbW
          { title := "t", description := "d", author := Option.none,
            link := some "", tags := [] } 3 "N1").1.idea.getLast?.map
        (fun d => dget d "link")) = some (some (Val.s ""))
    ∧ "".startsWith "https://" = false := by
  decide

/-- C5 (amended): for every `POST /api/ideas` payload whose `link` is present
and nonempty: if the link lacks a recognized scheme the stored link is the
link with `https://` prepended, and if it already carries a scheme it is
stored unchanged. -/
theorem C5_link_normalization (db : DB) (p : IdeaCreate) (now : Int) (f : String)
    (l : String) (hl : p.link = some l) (hne : l ≠ "") :
    (create_idea db p now f).1.idea
        = db.idea ++ [stamped (normalize_link p.dump) f now]
    ∧ (¬ (l.startsWith "http://" ∨ l.startsWith "https://") →
        dget (stamped (normalize_link p.dump) f now) "link"
          = some (Val.s ("https://" ++ l)))
    ∧ ((l.startsWith "http://" ∨ l.startsWith "https://") →
        dget (stamped (normalize_link p.dump) f now) "link" = some (Val.s l)) := by
  have hdump : dget p.dump "link" = some (Val.s l) := by
    simp [IdeaCreate.dump, dget, hl, optS]
  refine ⟨?_, ?_, ?_⟩
  · simp only [create_idea, create_document]
    split <;> rfl
  · intro hns
    rw [dget_stamped_ne _ _ _ (by decide) (by decide)]
    simp only [normalize_link, hdump]
    rw [if_pos hne, if_pos hns]
    exact dget_dset_self _ _ _
  · intro hs
    rw [dget_stamped_ne _ _ _ (by decide) (by decide)]
    simp only [normalize_link, hdump]
    rw [if_pos hne, if_neg (not_not_intro hs)]
    exact hdump

/-- A concrete create-idea payload with a scheme-less nonempty link. -/
def pW : IdeaCreate :=
  { title := "t", description := "d", author := Option.none,
    link := some "example.com", tags := [] }

/-- C5 witness: the amended theorem applied to a nonempty scheme-less link. -/
theorem C5_link_normalization_witness :
    (create_idea dbW pW 3 "N1").1.idea
        = dbW.idea ++ [stamped (normalize_link pW.dump) "N1" 3]
    ∧ (¬ ("example.com".startsWith "http://" ∨ "example.com".startsWith "https://") →
        dget (stamped (normalize_link pW.dump) "N1" 3) "link"
          = some (Val.s ("https://" ++ "example.com")))
    ∧ (("example.com".startsWith "http://" ∨ "example.com".startsWith "https://") →
        dget (stamped (normalize_link pW.dump) "N1" 3) "link"
          = some (Val.s "example.com")) :=
  C5_link_normalization dbW pW 3 "N1" "example.com" rfl (by decide)

/-- C6: posting a comment or a vote referencing an idea id that does not
resolve to an existing idea returns 404 and leaves the store unchanged. -/
theorem C6_missing_idea_404 (db : DB) (i : String)
    (h : db.idea.find? (byId i) = Option.none)
    (author : Option String) (content : String)
    (voter clientHost : Option String) (now now2 : Int) (f f2 : String) :
    add_comment db { idea_id := i, author := author, content := content } now f
      = (db, Resp.err 404 "Idea not found")
    ∧ add_vote db i voter clientHost now2 f2 = (db, Resp.err 404 "Idea not found") := by
  constructor
  · simp [add_comment, h]
  · simp [add_vote, h]

/-- C6 witness: the theorem applied to a store that has no idea `"zzz"`. -/
theorem C6_missing_idea_404_witness :
    add_comment dbW { idea_id := "zzz", author := Option.none, content := "hi" } 5 "f1"
      = (dbW, Resp.err 404 "Idea not found")
    ∧ add_vote dbW "zzz" (some "bob") Option.none 6 "f2"
      = (dbW, Resp.err 404 "Idea not found") :=
  C6_missing_idea_404 dbW "zzz" (by decide) Option.none "hi" (some "bob") Option.none 5 6 "f1" "f2"

/-- C7 counterexample: the supplied voter `""` is present, yet the vote is
recorded under the caller's address `"h"`, not under the supplied value
(Python `or` skips the falsy empty string). -/
theorem C7_counterexample :
    ((add_vote dbW "a" (some "") (some "h") 10 "f1").1.vote.map (fun d => dget d "voter"))
      = [some (Val.s "h")]
    ∧ some "h" ≠ some ("" : String) := by
  decide

/-- C7 (amended): against an existing idea, the voter identity used is the
supplied voter when present and nonempty, otherwise the caller's network
address; when neither yields a nonempty identity the call returns 400 and
inserts no vote record. -/
theorem C7_voter_resolution (db : DB) (i : String) (d : Doc)
    (hidea : db.idea.find? (byId i) = some d)
    (voter clientHost : Option String) (now : Int) (f : String) :
    (∀ v, voter = some v → v ≠ "" → resolve_voter voter clientHost = some v)
    ∧ ((voter = Option.none ∨ voter = some "") →
        resolve_voter voter clientHost = clientHost)
    ∧ ((resolve_voter voter clientHost = Option.none
          ∨ resolve_voter voter clientHost = some "") →
        add_vote db i voter clientHost now f = (db, Resp.err 400 "Missing voter identity"))
    ∧ (∀ vi, resolve_voter voter clientHost = some vi → vi ≠ "" →
        find_one db.vote (MFilter.mk (some (Val.s i)) (some (Val.s vi)) Option.none)
          = Option.none →
        (add_vote db i voter clientHost now f).1.vote
          = db.vote ++ [stamped [("idea_id", Val.s i), ("voter", Val.s vi)] f now]) := by
  refine ⟨?_, ?_, ?_, ?_⟩
  · intro v hv hne
    simp [resolve_voter, hv, hne]
  · rintro (rfl | rfl) <;> simp [resolve_voter]
  · rintro (h400 | h400) <;> simp [add_vote, hidea, h400]
  · intro vi hvi hne hnew
    simp only [add_vote, hidea, hvi, if_neg hne, hnew, create_document]
    split <;> rfl

/-- C7 witness: the amended theorem applied to a nonempty supplied voter. -/
theorem C7_voter_resolution_witness :
    (∀ v, some "bob" = some v → v ≠ "" →
        resolve_voter (some "bob") Option.none = some v)
    ∧ ((some "bob" = Option.none ∨ some "bob" = some "") →
        resolve_voter (some "bob") Option.none = Option.none)
    ∧ ((resolve_voter (some "bob") Option.none = Option.none
          ∨ resolve_voter (some "bob") Option.none = some "") →
        add_vote dbW "a" (some "bob") Option.none 10 "f1"
          = (dbW, Resp.err 400 "Missing voter identity"))
    ∧ (∀ vi, resolve_voter (some "bob") Option.none = some vi → vi ≠ "" →
        find_one dbW.vote (MFilter.mk (some (Val.s "a")) (some (Val.s vi)) Option.none)
          = Option.none →
        (add_vote dbW "a" (some "bob") Option.none 10 "f1").1.vote
          = dbW.vote ++ [stamped [("idea_id", Val.s "a"), ("voter", Val.s vi)] "f1" 10]) :=
  C7_voter_resolution dbW "a" ideaW (by decide) (some "bob") Option.none 10 "f1"

/-- C9 counterexample: `serialize_doc` mutates the record passed in by the
caller: with the heap holding one record `{_id: "a"}`, after the call the
caller's record differs from what it was before the call. -/
theorem C9_counterexample :
    (serialize_doc_inplace [[("_id", Val.oid "a")]] 0).1.getD 0 []
      ≠ [[("_id", Val.oid "a")]].getD 0 [] := by
  decide

/-- C9 (amended): `serialize_doc` deterministically produces the transport
object — the internal identifier exposed as string field `id` and removed,
`created_at`/`updated_at` datetimes rendered as text — by updating the
passed-in record in place and returning the same reference; it modifies no
object other than the record passed in. -/
theorem C9_serialize_doc (h : Heap) (r : Nat) (hr : r < h.length)
    (hu : countKey (h.getD r []) "_id" ≤ 1) (t u : Int)
    (hc : dget (h.getD r []) "created_at" = some (Val.dt t))
    (hup : dget (h.getD r []) "updated_at" = some (Val.dt u)) :
    (serialize_doc_inplace h r).2 = r
    ∧ (∀ r2, r2 ≠ r → (serialize_doc_inplace h r).1.getD r2 [] = h.getD r2 [])
    ∧ (serialize_doc_inplace h r).1.getD r [] = serialize_doc (h.getD r [])
    ∧ dget (serialize_doc (h.getD r [])) "id"
        = some (Val.s (strVal (dget (h.getD r []) "_id")))
    ∧ dget (serialize_doc (h.getD r [])) "_id" = Option.none
    ∧ dget (serialize_doc (h.getD r [])) "created_at" = some (Val.s (isoformat t))
    ∧ dget (serialize_doc (h.getD r [])) "updated_at" = some (Val.s (isoformat u)) :=
  ⟨rfl, fun _ h2 => serialize_doc_inplace_frame h h2,
    serialize_doc_inplace_content h hr, serialize_doc_id _,
    serialize_doc_no_id hu, serialize_doc_created_at hc,
    serialize_doc_updated_at hup⟩

/-- A concrete two-object heap for the C9 witness. -/
def heapW : Heap :=
  [[("_id", Val.oid "a"), ("created_at", Val.dt 1), ("updated_at", Val.dt 2)],
   [("_id", Val.oid "b")]]

/-- C9 witness: the amended theorem applied to `heapW` at reference 0. -/
theorem C9_serialize_doc_witness :
    (serialize_doc_inplace heapW 0).2 = 0
    ∧ (∀ r2, r2 ≠ 0 → (serialize_doc_inplace heapW 0).1.getD r2 [] = heapW.getD r2 [])
    ∧ (serialize_doc_inplace heapW 0).1.getD 0 [] = serialize_doc (heapW.getD 0 [])
    ∧ dget (serialize_doc (heapW.getD 0 [])) "id"
        = some (Val.s (strVal (dget (heapW.getD 0 []) "_id")))
    ∧ dget (serialize_doc (heapW.getD 0 [])) "_id" = Option.none
    ∧ dget (serialize_doc (heapW.getD 0 [])) "created_at" = some (Val.s (isoformat 1))
    ∧ dget (serialize_doc (heapW.getD 0 [])) "updated_at" = some (Val.s (isoformat 2)) :=
  C9_serialize_doc heapW 0 (by decide) (by decide) 1 2 (by decide) (by decide)

/-- C2: for every existing idea, `GET /api/ideas/{id}` returns `votes` equal
to the total number of matching vote records (no time restriction), and a
`comments_list` of length equal to the number of matching comment records,
ordered newest-first by creation time. -/
theorem C2_get_idea_counts (db : DB) (i : String) (d : Doc)
    (hidea : db.idea.find? (byId i) = some d) :
    ∃ detail, get_idea db i = Resp.ok detail
    ∧ detail.votes
        = db.vote.countP (matchesF (MFilter.mk (some (Val.s i)) Option.none Option.none))
    ∧ detail.comments_list.length
        = db.comment.countP (matchesF (MFilter.mk (some (Val.s i)) Option.none Option.none))
    ∧ detail.comments_list = (sorted_comments db i).map serialize_doc
    ∧ List.Pairwise (fun a b => createdAtKey b ≤ createdAtKey a) (sorted_comments db i) := by
  refine ⟨IdeaDetail.mk (serialize_doc d) ((sorted_comments db i).map serialize_doc)
      (count_documents db.vote (MFilter.mk (some (Val.s i)) Option.none Option.none)),
    by simp only [get_idea, hidea], rfl, ?_, rfl, pairwise_sortDescBy _ _⟩
  show ((sorted_comments db i).map serialize_doc).length = _
  rw [List.length_map, sorted_comments, (sortDescBy_perm _ _).length_eq]
  exact (List.countP_eq_length_filter _ _).symm

/-- C2 witness: the theorem applied to the one-idea store `dbW`. -/
theorem C2_get_idea_counts_witness :
    ∃ detail, get_idea dbW "a" = Resp.ok detail
    ∧ detail.votes
        = dbW.vote.countP (matchesF (MFilter.mk (some (Val.s "a")) Option.none Option.none))
    ∧ detail.comments_list.length
        = dbW.comment.countP (matchesF (MFilter.mk (some (Val.s "a")) Option.none Option.none))
    ∧ detail.comments_list = (sorted_comments dbW "a").map serialize_doc
    ∧ List.Pairwise (fun a b => createdAtKey b ≤ createdAtKey a) (sorted_comments dbW "a") :=
  C2_get_idea_counts dbW "a" ideaW (by decide)

/-- C3: the list returned by `GET /api/ideas` with `sort=comments` is
non-increasing in each entry's comment count, and with the default sort
(`sort=votes`) non-increasing in each entry's vote count; both sorts are
stable: the entries carrying any fixed key value keep the relative order they
had in the unsorted enriched list. -/
theorem C3_sort_order (now : Int) (db : DB) (period : Option String) :
    List.Pairwise (fun a b => intField "comments" b ≤ intField "comments" a)
      (list_ideas now db period "comments")
    ∧ List.Pairwise (fun a b => intField "votes" b ≤ intField "votes" a)
      (list_ideas now db period "votes")
    ∧ (∀ k : Int, (list_ideas now db period "comments").filter
        (fun d => intField "comments" d == k)
        = (enrich now db period).filter (fun d => intField "comments" d == k))
    ∧ (∀ k : Int, (list_ideas now db period "votes").filter
        (fun d => intField "votes" d == k)
        = (enrich now db period).filter (fun d => intField "votes" d == k)) := by
  have h1 : list_ideas now db period "comments"
      = sortDescBy (intField "comments") (enrich now db period) := by
    simp [list_ideas]
  have h2 : list_ideas now db period "votes"
      = sortDescBy (intField "votes") (enrich now db period) := by
    simp [list_ideas]
  refine ⟨?_, ?_, ?_, ?_⟩
  · rw [h1]; exact pairwise_sortDescBy _ _
  · rw [h2]; exact pairwise_sortDescBy _ _
  · intro k; rw [h1, filter_sortDescBy]
  · intro k; rw [h2, filter_sortDescBy]

/-- C10: for every `period` and `sort` query value, `GET /api/ideas` returns a
permutation of one enriched entry per stored idea (so no value is rejected and
`period` never restricts which ideas appear), and every sort value other than
`comments` produces the same list as the default vote sort. -/
theorem C10_list_ideas_total (now : Int) (db : DB) (period : Option String)
    (sortq : String) :
    List.Perm (list_ideas now db period sortq)
      (db.idea.map (enrich1 db (listTimeFilter now period)))
    ∧ (list_ideas now db period sortq).length = db.idea.length
    ∧ (sortq ≠ "comments" →
        list_ideas now db period sortq = list_ideas now db period "votes") := by
  have hperm : List.Perm (list_ideas now db period sortq)
      (db.idea.map (enrich1 db (listTimeFilter now period))) := by
    by_cases hs : sortq = "comments"
    · simp only [list_ideas, hs, if_pos]
      exact sortDescBy_perm _ _
    · simp only [list_ideas, if_neg hs]
      exact sortDescBy_perm _ _
  refine ⟨hperm, ?_, ?_⟩
  · rw [hperm.length_eq, List.length_map]
  · intro hs
    have hv : ("votes" : String) ≠ "comments" := by decide
    simp only [list_ideas, if_neg hs, if_neg hv]

/-- C10 witness: the theorem applied to concrete out-of-range query values. -/
theorem C10_list_ideas_total_witness :
    List.Perm (list_ideas 0 dbW (some "year") "hot")
      (dbW.idea.map (enrich1 dbW (listTimeFilter 0 (some "year"))))
    ∧ (list_ideas 0 dbW (some "year") "hot").length = dbW.idea.length
    ∧ list_ideas 0 dbW (some "year") "hot" = list_ideas 0 dbW (some "year") "votes" := by
  refine ⟨(C10_list_ideas_total 0 dbW (some "year") "hot").1,
    (C10_list_ideas_total 0 dbW (some "year") "hot").2.1,
    (C10_list_ideas_total 0 dbW (some "year") "hot").2.2 (by decide)⟩

/-- The freshly stamped vote record matches the duplicate-vote filter for the
same `(idea_id, voter)` pair. -/
theorem matchesF_pair_stamped (i v f : String) (now : Int) :
    matchesF (MFilter.mk (some (Val.s i)) (some (Val.s v)) Option.none)
      (stamped [("idea_id", Val.s i), ("voter", Val.s v)] f now) = true := by
  have h1 : dget (stamped [("idea_id", Val.s i), ("voter", Val.s v)] f now) "idea_id"
      = some (Val.s i) := by
    rw [dget_stamped_ne _ _ _ (by decide) (by decide)]
    simp [dget]
  have h2 : dget (stamped [("idea_id", Val.s i), ("voter", Val.s v)] f now) "voter"
      = some (Val.s v) := by
    rw [dget_stamped_ne _ _ _ (by decide) (by decide)]
    simp [dget]
  simp [matchesF, h1, h2]

/-- A successful `POST /api/votes` appends exactly the stamped vote record and
answers 200. -/
theorem add_vote_insert (db : DB) (i : String) (d : Doc)
    (hidea : db.idea.find? (byId i) = some d) (v : String) (hv : v ≠ "")
    (host : Option String)
    (hfresh : find_one db.vote (MFilter.mk (some (Val.s i)) (some (Val.s v)) Option.none)
      = Option.none) (now : Int) (f : String) :
    (add_vote db i (some v) host now f).1
      = DB.mk db.idea db.comment
          (db.vote ++ [stamped [("idea_id", Val.s i), ("voter", Val.s v)] f now])
    ∧ (add_vote db i (some v) host now f).2.isOk = true := by
  have hres : resolve_voter (some v) host = some v := by simp [resolve_voter, hv]
  constructor
  · simp only [add_vote, hidea, hres, if_neg hv, hfresh, create_document]
    split <;> rfl
  · simp only [add_vote, hidea, hres, if_neg hv, hfresh, create_document]
    rw [List.find?_append]
    cases hc : db.vote.find? (byId f) with
    | some x => simp [Resp.isOk]
    | none => simp [List.find?_cons, byId_stamped, Resp.isOk]

/-- C1 counterexample: with the explicit voter value `""` (and no resolvable
client address) against an existing idea never voted on, the first call
returns 400 — not 200 — and inserts nothing. -/
theorem C1_counterexample :
    (add_vote dbW "a" (some "") Option.none 10 "f1").2
        = Resp.err 400 "Missing voter identity"
    ∧ (add_vote dbW "a" (some "") Option.none 10 "f1").1 = dbW := by
  decide

/-- C1 (amended): for every idea and every nonempty explicit voter value whose
`(idea_id, voter)` pair has not voted yet, the first `POST /api/votes` returns
200 and appends exactly one vote record (the other collections unchanged), and
the second call with the same pair returns 409 and changes nothing. -/
theorem C1_vote_twice (db : DB) (i : String) (d : Doc)
    (hidea : db.idea.find? (byId i) = some d) (v : String) (hv : v ≠ "")
    (hfresh : find_one db.vote (MFilter.mk (some (Val.s i)) (some (Val.s v)) Option.none)
      = Option.none)
    (host host2 : Option String) (now now2 : Int) (f f2 : String) :
    (add_vote db i (some v) host now f).2.isOk = true
    ∧ (add_vote db i (some v) host now f).1.idea = db.idea
    ∧ (add_vote db i (some v) host now f).1.comment = db.comment
    ∧ (add_vote db i (some v) host now f).1.vote.length = db.vote.length + 1
    ∧ add_vote ((add_vote db i (some v) host now f).1) i (some v) host2 now2 f2
        = ((add_vote db i (some v) host now f).1, Resp.err 409 "Already voted") := by
  obtain ⟨hdb, hok⟩ := add_vote_insert db i d hidea v hv host hfresh now f
  refine ⟨hok, by rw [hdb], by rw [hdb], by rw [hdb]; simp, ?_⟩
  rw [hdb]
  have hres : resolve_voter (some v) host2 = some v := by simp [resolve_voter, hv]
  have hf2 : find_one (db.vote ++ [stamped [("idea_id", Val.s i), ("voter", Val.s v)] f now])
      (MFilter.mk (some (Val.s i)) (some (Val.s v)) Option.none)
      = some (stamped [("idea_id", Val.s i), ("voter", Val.s v)] f now) := by
    unfold find_one at hfresh ⊢
    rw [List.find?_append, hfresh]
    simp [List.find?_cons, matchesF_pair_stamped]
  simp only [add_vote, hidea, hres, if_neg hv, hf2]

/-- C1 witness: the amended theorem applied to voter `"bob"` on `dbW`. -/
theorem C1_vote_twice_witness :
    (add_vote dbW "a" (some "bob") Option.none 10 "f1").2.isOk = true
    ∧ (add_vote dbW "a" (some "bob") Option.none 10 "f1").1.idea = dbW.idea
    ∧ (add_vote dbW "a" (some "bob") Option.none 10 "f1").1.comment = dbW.comment
    ∧ (add_vote dbW "a" (some "bob") Option.none 10 "f1").1.vote.length
        = dbW.vote.length + 1
    ∧ add_vote ((add_vote dbW "a" (some "bob") Option.none 10 "f1").1) "a" (some "bob")
          Option.none 11 "f2"
        = ((add_vote dbW "a" (some "bob") Option.none 10 "f1").1,
           Resp.err 409 "Already voted") :=
  C1_vote_twice dbW "a" ideaW (by decide) "bob" (by decide) (by decide)
    Option.none Option.none 10 11 "f1" "f2"

theorem dget_mkVote_idea (b v : String) : dget (mkVote b v) "idea_id" = some (Val.s b) := by
  simp [mkVote, dget]

theorem dget_mkComment_idea (b x y : String) :
    dget (mkComment b x y) "idea_id" = some (Val.s b) := by
  simp [mkComment, dget]

theorem dget_stamped_idea_id (data : Doc) (f : String) (now : Int) :
    dget (stamped data f now) "idea_id" = dget data "idea_id" :=
  dget_stamped_ne _ _ _ (by decide) (by decide)

/-- Matching a pure idea-id filter only looks at the `idea_id` field. -/
theorem matchesF_idonly (a : String) {d : Doc} {b : String}
    (hb : dget d "idea_id" = some (Val.s b)) :
    matchesF (MFilter.mk (some (Val.s a)) Option.none Option.none) d = (b == a) := by
  by_cases hab : b = a
  · subst hab; simp [matchesF, hb]
  · simp [matchesF, hb, hab]

theorem matchesF_stamped_mkComment (a b x y f : String) (now : Int) :
    matchesF (MFilter.mk (some (Val.s a)) Option.none Option.none)
      (stamped (mkComment b x y) f now) = (b == a) :=
  matchesF_idonly a (by rw [dget_stamped_idea_id]; exact dget_mkComment_idea b x y)

theorem matchesF_stamped_mkVote (a b v f : String) (now : Int) :
    matchesF (MFilter.mk (some (Val.s a)) Option.none Option.none)
      (stamped (mkVote b v) f now) = (b == a) :=
  matchesF_idonly a (by rw [dget_stamped_idea_id]; exact dget_mkVote_idea b v)

/-- Shape of the store after seeding an empty idea collection. -/
theorem ensure_seed_data_empty (db : DB) (hempty : db.idea = []) (now : Int)
    (fresh : Nat → String) :
    ensure_seed_data db now fresh = DB.mk
      [stamped seedIdea1 (fresh 0) now, stamped seedIdea2 (fresh 1) now,
       stamped seedIdea3 (fresh 2) now]
      (db.comment ++ [stamped (mkComment (fresh 0) "Maya" "Love this!") (fresh 3) now,
        stamped (mkComment (fresh 0) "Ravi" "Would use at work.") (fresh 4) now,
        stamped (mkComment (fresh 1) "Chris" "Nice concept.") (fresh 5) now])
      (db.vote
        ++ ((List.range 5).map
              (fun i => stamped (mkVote (fresh 0) ("user_" ++ toString i)) (fresh (6 + i)) now)
          ++ ((List.range 3).map
              (fun i => stamped (mkVote (fresh 1) ("user_" ++ toString i)) (fresh (11 + i)) now)
          ++ (List.range 8).map
              (fun i => stamped (mkVote (fresh 2) ("user_" ++ toString i)) (fresh (14 + i)) now)))) := by
  unfold ensure_seed_data voteLoop create_document
  rw [hempty]
  simp

/-- C8: seeding an empty idea collection inserts exactly 3 ideas, exactly 3
comments distributed 2 on the first idea and 1 on the second, and exactly 16
votes distributed 5, 3, 8 across the three ideas; a second run changes
nothing, and more generally the seed performs no writes on any store whose
idea collection is non-empty. -/
theorem C8_seed (db : DB) (hempty : db.idea = []) (now : Int) (fresh : Nat → String)
    (h01 : fresh 0 ≠ fresh 1) (h02 : fresh 0 ≠ fresh 2) (h12 : fresh 1 ≠ fresh 2)
    (hc : ∀ k, k < 3 → db.comment.countP
        (matchesF (MFilter.mk (some (Val.s (fresh k))) Option.none Option.none)) = 0)
    (hv : ∀ k, k < 3 → db.vote.countP
        (matchesF (MFilter.mk (some (Val.s (fresh k))) Option.none Option.none)) = 0) :
    (ensure_seed_data db now fresh).idea.length = 3
    ∧ (ensure_seed_data db now fresh).comment.length = db.comment.length + 3
    ∧ (ensure_seed_data db now fresh).vote.length = db.vote.length + 16
    ∧ (ensure_seed_data db now fresh).comment.countP
        (matchesF (MFilter.mk (some (Val.s (fresh 0))) Option.none Option.none)) = 2
    ∧ (ensure_seed_data db now fresh).comment.countP
        (matchesF (MFilter.mk (some (Val.s (fresh 1))) Option.none Option.none)) = 1
    ∧ (ensure_seed_data db now fresh).vote.countP
        (matchesF (MFilter.mk (some (Val.s (fresh 0))) Option.none Option.none)) = 5
    ∧ (ensure_seed_data db now fresh).vote.countP
        (matchesF (MFilter.mk (some (Val.s (fresh 1))) Option.none Option.none)) = 3
    ∧ (ensure_seed_data db now fresh).vote.countP
        (matchesF (MFilter.mk (some (Val.s (fresh 2))) Option.none Option.none)) = 8
    ∧ (∀ db2 : DB, db2.idea ≠ [] → ∀ (now2 : Int) (fresh2 : Nat → String),
        ensure_seed_data db2 now2 fresh2 = db2)
    ∧ (∀ (now2 : Int) (fresh2 : Nat → String),
        ensure_seed_data (ensure_seed_data db now fresh) now2 fresh2
          = ensure_seed_data db now fresh) := by
  have hstruct := ensure_seed_data_empty db hempty now fresh
  have b00 : (fresh 0 == fresh 0) = true := beq_self_eq_true _
  have b11 : (fresh 1 == fresh 1) = true := beq_self_eq_true _
  have b22 : (fresh 2 == fresh 2) = true := beq_self_eq_true _
  have b01 : (fresh 0 == fresh 1) = false := beq_eq_false_iff_ne.mpr h01
  have b10 : (fresh 1 == fresh 0) = false := beq_eq_false_iff_ne.mpr (Ne.symm h01)
  have b02 : (fresh 0 == fresh 2) = false := beq_eq_false_iff_ne.mpr h02
  have b20 : (fresh 2 == fresh 0) = false := beq_eq_false_iff_ne.mpr (Ne.symm h02)
  have b12 : (fresh 1 == fresh 2) = false := beq_eq_false_iff_ne.mpr h12
  have b21 : (fresh 2 == fresh 1) = false := beq_eq_false_iff_ne.mpr (Ne.symm h12)
  have hnonempty : ∀ db2 : DB, db2.idea ≠ [] → ∀ (now2 : Int) (fresh2 : Nat → String),
      ensure_seed_data db2 now2 fresh2 = db2 := by
    intro db2 h now2 fresh2
    simp [ensure_seed_data, List.length_pos.mpr h]
  refine ⟨by rw [hstruct]; rfl, by rw [hstruct]; simp, ?_, ?_, ?_, ?_, ?_, ?_, hnonempty, ?_⟩
  · rw [hstruct]
    simp
  · rw [hstruct]
    simp [List.countP_append, List.countP_cons, matchesF_stamped_mkComment,
      b00, b10, hc 0 (by omega)]
  · rw [hstruct]
    simp [List.countP_append, List.countP_cons, matchesF_stamped_mkComment,
      b01, b11, hc 1 (by omega)]
  · rw [hstruct]
    simp [List.countP_append, List.range_succ, List.countP_cons,
      matchesF_stamped_mkVote, b00, b10, b20, hv 0 (by omega)]
  · rw [hstruct]
    simp [List.countP_append, List.range_succ, List.countP_cons,
      matchesF_stamped_mkVote, b01, b11, b21, hv 1 (by omega)]
  · rw [hstruct]
    simp [List.countP_append, List.range_succ, List.countP_cons,
      matchesF_stamped_mkVote, b02, b12, b22, hv 2 (by omega)]
  · intro now2 fresh2
    refine hnonempty _ ?_ now2 fresh2
    rw [hstruct]
    simp

/-- The empty store. -/
def db0 : DB := { idea := [], comment := [], vote := [] }

/-- A concrete injective identifier stream for the seed witness. -/
def freshW : Nat → String := fun n => "id" ++ toString n

/-- C8 witness: the theorem applied to the empty store. -/
theorem C8_seed_witness :
    (ensure_seed_data db0 0 freshW).idea.length = 3
    ∧ (ensure_seed_data db0 0 freshW).comment.length = db0.comment.length + 3
    ∧ (ensure_seed_data db0 0 freshW).vote.length = db0.vote.length + 16
    ∧ (ensure_seed_data db0 0 freshW).comment.countP
        (matchesF (MFilter.mk (some (Val.s (freshW 0))) Option.none Option.none)) = 2
    ∧ (ensure_seed_data db0 0 freshW).comment.countP
        (matchesF (MFilter.mk (some (Val.s (freshW 1))) Option.none Option.none)) = 1
    ∧ (ensure_seed_data db0 0 freshW).vote.countP
        (matchesF (MFilter.mk (some (Val.s (freshW 0))) Option.none Option.none)) = 5
    ∧ (ensure_seed_data db0 0 freshW).vote.countP
        (matchesF (MFilter.mk (some (Val.s (freshW 1))) Option.none Option.none)) = 3
    ∧ (ensure_seed_data db0 0 freshW).vote.countP
        (matchesF (MFilter.mk (some (Val.s (freshW 2))) Option.none Option.none)) = 8
    ∧ (∀ db2 : DB, db2.idea ≠ [] → ∀ (now2 : Int) (fresh2 : Nat → String),
        ensure_seed_data db2 now2 fresh2 = db2)
    ∧ (∀ (now2 : Int) (fresh2 : Nat → String),
        ensure_seed_data (ensure_seed_data db0 0 freshW) now2 fresh2
          = ensure_seed_data db0 0 freshW) :=
  C8_seed db0 rfl 0 freshW (by decide) (by decide) (by decide)
    (fun k _ => rfl) (fun k _ => rfl)
